import Mathlib

/-!
Shallow embedding of the instruction translator in
`instructiontranslator.cpp` (revng), together with theorems settling the
claims about it.

Modelling conventions:
* Machine integers are `Nat` with explicit `% 2 ^ w` where the C++/LLVM
  operation wraps.  An LLVM shift whose amount is at least the operand
  width yields poison: such results carry a `poison` flag (propagated
  through the value operations) alongside the meaningless total mod-`2^w`
  evaluation of the `val` field.
* An LLVM `Value` is modelled by `TValue`: its integer width, its runtime
  value, whether it is a `ConstantInt`, (for values produced by a load)
  whether the load's pointer operand is the `env` variable
  (`VariableManager::isEnv`), and whether it is poison.  `IRBuilder`
  constant folding is not modelled; the inputs reaching the dispatcher
  are loads of temporaries, which are never constants.
* External collaborators (`ptc` decoders, `VariableManager`,
  `JumpTargetManager`, architecture descriptors) are oracle functions
  collected in `Ctx`.
* Basic blocks are identified by numeric ids.  `FnState` records the
  function's block list, the label table, the per-block instruction count
  (only read, through the `set_label` emptiness assertion; the appending of
  ordinary instructions to the current block is not tracked), the
  translator's `Blocks` vector and the builder's insertion point.
* `llvm_unreachable`, failed `assert`s and dereferences of a null
  `Type *` are modelled as `TransErr.fatal`; the single
  `std::errc::invalid_argument` return value of `translateOpcode` is
  `TransErr.recoverable`.
-/

namespace Revng

/-- The PTC opcodes appearing in `instructiontranslator.cpp`. -/
inductive PTCOpcode where
  | movi_i32 | movi_i64
  | discard
  | mov_i32 | mov_i64
  | setcond_i32 | setcond_i64
  | movcond_i32 | movcond_i64
  | qemu_ld_i32 | qemu_ld_i64 | qemu_st_i32 | qemu_st_i64
  | ld8u_i32 | ld8s_i32 | ld16u_i32 | ld16s_i32 | ld_i32
  | ld8u_i64 | ld8s_i64 | ld16u_i64 | ld16s_i64 | ld32u_i64 | ld32s_i64 | ld_i64
  | st8_i32 | st16_i32 | st_i32
  | st8_i64 | st16_i64 | st32_i64 | st_i64
  | add_i32 | sub_i32 | mul_i32 | div_i32 | divu_i32 | rem_i32 | remu_i32
  | and_i32 | or_i32 | xor_i32 | shl_i32 | shr_i32 | sar_i32
  | add_i64 | sub_i64 | mul_i64 | div_i64 | divu_i64 | rem_i64 | remu_i64
  | and_i64 | or_i64 | xor_i64 | shl_i64 | shr_i64 | sar_i64
  | div2_i32 | divu2_i32 | div2_i64 | divu2_i64
  | rotr_i32 | rotr_i64 | rotl_i32 | rotl_i64
  | deposit_i32 | deposit_i64
  | ext8s_i32 | ext16s_i32 | ext8u_i32 | ext16u_i32
  | ext8s_i64 | ext16s_i64 | ext32s_i64 | ext8u_i64 | ext16u_i64 | ext32u_i64
  | not_i32 | not_i64 | neg_i32 | neg_i64
  | andc_i32 | andc_i64 | orc_i32 | orc_i64 | eqv_i32 | eqv_i64
  | nand_i32 | nand_i64 | nor_i32 | nor_i64
  | bswap16_i32 | bswap32_i32 | bswap16_i64 | bswap32_i64 | bswap64_i64
  | set_label
  | br | brcond_i32 | brcond2_i32 | brcond_i64
  | exit_tb | goto_tb
  | add2_i32 | sub2_i32 | add2_i64 | sub2_i64
  | mulu2_i32 | mulu2_i64 | muls2_i32 | muls2_i64
  | muluh_i32 | mulsh_i32 | muluh_i64 | mulsh_i64
  | setcond2_i32 | trunc_shr_i32
  | call | debug_insn_start
  deriving DecidableEq, Repr

/-- PTC condition codes (`PTCCondition`); `invalid` stands for a raw value
outside the enumeration, reaching the `default: llvm_unreachable`. -/
inductive PTCCondition where
  | never | always | eq | ne | lt | ge | le | gt | ltu | geu | leu | gtu
  | invalid
  deriving DecidableEq, Repr

/-- LLVM comparison predicates produced by `conditionToPredicate`. -/
inductive Pred where
  | fcmpFalse | fcmpTrue
  | icmpEq | icmpNe | icmpSlt | icmpSge | icmpSle | icmpSgt
  | icmpUlt | icmpUge | icmpUle | icmpUgt
  deriving DecidableEq, Repr

/-- LLVM binary operations selected by `opcodeToBinaryOp`. -/
inductive BinOp where
  | add | sub | mul | sdiv | udiv | srem | urem
  | and | or | xor | shl | lshr | ashr
  deriving DecidableEq, Repr

/-- Reasons for a fatal translator failure (`llvm_unreachable`, failed
asserts, null `Type *` dereferences). -/
inductive FatalReason where
  | unknownComparison
  | notBinaryOperator
  | badBitCount
  | unexpectedOpcode
  | nullTypeDeref
  | accessTypeUnknown
  | unexpectedLoadSize
  | unknownLoadType
  | icmpPredicateAssert
  | unknownOperationType
  | labelBlockNotEmpty
  | unhandledOpcode
  | notImplemented
  | unknownOpcode
  | resultCountMismatch
  | lastMarkerNull
  | nonIncreasingPC
  deriving DecidableEq, Repr

/-- Outcome severity of one dispatcher call: `recoverable` models the
`std::errc::invalid_argument` value of the `ErrorOr` result, `fatal`
models process abort. -/
inductive TransErr where
  | recoverable
  | fatal (reason : FatalReason)
  deriving DecidableEq, Repr

/-- `conditionToPredicate`: converts a PTC condition into an LLVM
predicate; the `default` case is `llvm_unreachable`. -/
def conditionToPredicate : PTCCondition → Option Pred
  | .never => some .fcmpFalse
  | .always => some .fcmpTrue
  | .eq => some .icmpEq
  | .ne => some .icmpNe
  | .lt => some .icmpSlt
  | .ge => some .icmpSge
  | .le => some .icmpSle
  | .gt => some .icmpSgt
  | .ltu => some .icmpUlt
  | .geu => some .icmpUge
  | .leu => some .icmpUle
  | .gtu => some .icmpUgt
  | .invalid => none

/-- `opcodeToBinaryOp`: the LLVM binary operation for a PTC opcode; the
`default` case is `llvm_unreachable`. -/
def opcodeToBinaryOp : PTCOpcode → Option BinOp
  | .add_i32 | .add_i64 | .add2_i32 | .add2_i64 => some .add
  | .sub_i32 | .sub_i64 | .sub2_i32 | .sub2_i64 => some .sub
  | .mul_i32 | .mul_i64 => some .mul
  | .div_i32 | .div_i64 => some .sdiv
  | .divu_i32 | .divu_i64 => some .udiv
  | .rem_i32 | .rem_i64 => some .srem
  | .remu_i32 | .remu_i64 => some .urem
  | .and_i32 | .and_i64 => some .and
  | .or_i32 | .or_i64 => some .or
  | .xor_i32 | .xor_i64 => some .xor
  | .shl_i32 | .shl_i64 => some .shl
  | .shr_i32 | .shr_i64 => some .lshr
  | .sar_i32 | .sar_i64 => some .ashr
  | _ => none

/-- `getMaxValue`: the maximum value representable in the given number of
bits; anything other than 32 or 64 is `llvm_unreachable`. -/
def getMaxValue (Bits : Nat) : Option Nat :=
  if Bits = 32 then some 0xffffffff
  else if Bits = 64 then some 0xffffffffffffffff
  else none

/-- `getRegisterSize`: maps an opcode to the size, in bits, of the
registers used by the opcode (0 for the control-only opcodes). -/
def getRegisterSize : PTCOpcode → Nat
  | .add2_i32 | .add_i32 | .andc_i32 | .and_i32 | .brcond2_i32
  | .brcond_i32 | .bswap16_i32 | .bswap32_i32 | .deposit_i32 | .div2_i32
  | .div_i32 | .divu2_i32 | .divu_i32 | .eqv_i32 | .ext16s_i32
  | .ext16u_i32 | .ext8s_i32 | .ext8u_i32 | .ld16s_i32 | .ld16u_i32
  | .ld8s_i32 | .ld8u_i32 | .ld_i32 | .movcond_i32 | .mov_i32
  | .movi_i32 | .mul_i32 | .muls2_i32 | .mulsh_i32 | .mulu2_i32
  | .muluh_i32 | .nand_i32 | .neg_i32 | .nor_i32 | .not_i32
  | .orc_i32 | .or_i32 | .qemu_ld_i32 | .qemu_st_i32 | .rem_i32
  | .remu_i32 | .rotl_i32 | .rotr_i32 | .sar_i32 | .setcond2_i32
  | .setcond_i32 | .shl_i32 | .shr_i32 | .st16_i32 | .st8_i32
  | .st_i32 | .sub2_i32 | .sub_i32 | .trunc_shr_i32 | .xor_i32 => 32
  | .add2_i64 | .add_i64 | .andc_i64 | .and_i64 | .brcond_i64
  | .bswap16_i64 | .bswap32_i64 | .bswap64_i64 | .deposit_i64 | .div2_i64
  | .div_i64 | .divu2_i64 | .divu_i64 | .eqv_i64 | .ext16s_i64
  | .ext16u_i64 | .ext32s_i64 | .ext32u_i64 | .ext8s_i64 | .ext8u_i64
  | .ld16s_i64 | .ld16u_i64 | .ld32s_i64 | .ld32u_i64 | .ld8s_i64
  | .ld8u_i64 | .ld_i64 | .movcond_i64 | .mov_i64 | .movi_i64
  | .mul_i64 | .muls2_i64 | .mulsh_i64 | .mulu2_i64 | .muluh_i64
  | .nand_i64 | .neg_i64 | .nor_i64 | .not_i64 | .orc_i64
  | .or_i64 | .qemu_ld_i64 | .qemu_st_i64 | .rem_i64 | .remu_i64
  | .rotl_i64 | .rotr_i64 | .sar_i64 | .setcond_i64 | .shl_i64
  | .shr_i64 | .st16_i64 | .st32_i64 | .st8_i64 | .st_i64
  | .sub2_i64 | .sub_i64 | .xor_i64 => 64
  | .br | .call | .debug_insn_start | .discard | .exit_tb
  | .goto_tb | .set_label => 0

/-- Model of an LLVM `Value` handle: integer width, runtime value,
whether it is a `ConstantInt`, whether it is a load whose pointer
operand is the `env` variable, and whether the value is poison (an LLVM
shift whose amount is at least the operand width; poison propagates
through the value operations).  When `poison` is true the `val` field is
the total mod-2^w evaluation and carries no program guarantee. -/
structure TValue where
  width : Nat
  val : Nat
  isConst : Bool
  isEnv : Bool
  poison : Bool
  deriving DecidableEq, Repr

/-- A loaded/computed w-bit value (not a constant, not an env load). -/
def TValue.int (w n : Nat) : TValue := ⟨w, n % 2 ^ w, false, false, false⟩

/-- Default value used for the (undefined-behaviour) out-of-range operand
accesses; the claims only exercise in-range accesses. -/
def TValue.junk : TValue := ⟨0, 0, false, false, false⟩

/-- `InArguments[i]`. -/
def arg (ins : List TValue) (i : Nat) : TValue := ins.getD i TValue.junk

/-- `ConstArguments[i]`. -/
def carg (cs : List Nat) (i : Nat) : Nat := cs.getD i 0

/-- Two's-complement reading of a w-bit value. -/
def toInt (w v : Nat) : Int :=
  if v < 2 ^ (w - 1) then (v : Int) else (v : Int) - 2 ^ w

/-- The w-bit pattern of an integer (two's complement). -/
def toBits (w : Nat) (z : Int) : Nat := (z % ((2 : Int) ^ w)).toNat

/-- Zero extension of a `w1`-bit pattern viewed at `w2` bits. -/
def sextVal (w1 w2 v : Nat) : Nat :=
  if v < 2 ^ (w1 - 1) then v else v + (2 ^ w2 - 2 ^ w1)

/-- `IRBuilder::CreateTrunc`. -/
def createTrunc (x : TValue) (w : Nat) : TValue := ⟨w, x.val % 2 ^ w, false, false, x.poison⟩

/-- `IRBuilder::CreateZExt`. -/
def createZExt (x : TValue) (w : Nat) : TValue := ⟨w, x.val, false, false, x.poison⟩

/-- `IRBuilder::CreateSExt`. -/
def createSExt (x : TValue) (w : Nat) : TValue :=
  ⟨w, sextVal x.width w x.val, false, false, x.poison⟩

/-- `IRBuilder::CreateZExtOrTrunc`. -/
def createZExtOrTrunc (x : TValue) (w : Nat) : TValue :=
  if x.width < w then createZExt x w
  else if w < x.width then createTrunc x w
  else x

/-- `IRBuilder::CreateSelect` (condition is an i1). -/
def createSelect (c t f : TValue) : TValue :=
  ⟨t.width, if c.val = 1 then t.val else f.val, false, false,
   c.poison || (if c.val = 1 then t.poison else f.poison)⟩

/-- `ConstantInt::get(Ty, n)`: fatal if `Ty` is a null pointer (the value
is truncated to the type's width). -/
def mkConstInt (ty : Option Nat) (n : Nat) : Option TValue :=
  match ty with
  | some w => some ⟨w, n % 2 ^ w, true, false, false⟩
  | none => none

/-- A `ConstantInt` of the same type as `x` (the `uint64_t` overloads of
the `IRBuilder` binary operations). -/
def constLike (x : TValue) (n : Nat) : TValue := ⟨x.width, n % 2 ^ x.width, true, false, false⟩

/-- Semantics of `IRBuilder::CreateBinOp` on w-bit integers; the result
type is the left operand's.  A shift whose amount is at least the width
is poison in LLVM: the result carries the poison flag (and the `val`
field holds the meaningless total mod-`2^w` evaluation); poison operands
poison the result.  Division by zero is immediate undefined behaviour in
LLVM and evaluates here to the total `Nat` extension (0 for division). -/
def evalBinOp (op : BinOp) (x y : TValue) : TValue :=
  let w := x.width
  let p :=
    match op with
    | .shl | .lshr | .ashr => x.poison || y.poison || decide (w ≤ y.val)
    | _ => x.poison || y.poison
  let val :=
    match op with
    | .add => (x.val + y.val) % 2 ^ w
    | .sub => (x.val + (2 ^ w - y.val % 2 ^ w)) % 2 ^ w
    | .mul => (x.val * y.val) % 2 ^ w
    | .sdiv => toBits w ((toInt w x.val).tdiv (toInt w y.val))
    | .udiv => x.val / y.val
    | .srem => toBits w ((toInt w x.val).tmod (toInt w y.val))
    | .urem => x.val % y.val
    | .and => x.val &&& y.val
    | .or => x.val ||| y.val
    | .xor => (x.val ^^^ y.val) % 2 ^ w
    | .shl => (x.val <<< y.val) % 2 ^ w
    | .lshr => x.val >>> y.val
    | .ashr => toBits w ((toInt w x.val).ediv ((2 : Int) ^ y.val))
  ⟨w, val, false, false, p⟩

/-- Semantics of `IRBuilder::CreateICmp`; constructing an `ICmpInst` with
one of the floating-point predicates trips the `isIntPredicate` assertion
(`none`). -/
def evalICmp (p : Pred) (x y : TValue) : Option TValue :=
  let w := x.width
  let b : Option Bool :=
    match p with
    | .fcmpFalse => none
    | .fcmpTrue => none
    | .icmpEq => some (decide (x.val = y.val))
    | .icmpNe => some (decide (x.val ≠ y.val))
    | .icmpSlt => some (decide (toInt w x.val < toInt w y.val))
    | .icmpSge => some (decide (toInt w y.val ≤ toInt w x.val))
    | .icmpSle => some (decide (toInt w x.val ≤ toInt w y.val))
    | .icmpSgt => some (decide (toInt w y.val < toInt w x.val))
    | .icmpUlt => some (decide (x.val < y.val))
    | .icmpUge => some (decide (y.val ≤ x.val))
    | .icmpUle => some (decide (x.val ≤ y.val))
    | .icmpUgt => some (decide (y.val < x.val))
  b.map fun c => ⟨1, if c then 1 else 0, false, false, x.poison || y.poison⟩

/-- Byte reversal of a w-bit value (the `llvm.bswap` intrinsic). -/
def byteswap (w v : Nat) : Nat :=
  (List.range (w / 8)).foldl
    (fun acc i => acc ||| (((v >>> (8 * i)) &&& 255) <<< (8 * (w / 8 - 1 - i)))) 0

/-- `(1 << Length) - 1` as the deposit lowering computes it: the literal
`1` is a 32-bit `int`, so the shift is 32-bit arithmetic (undefined
behaviour for counts of 31 or more; x86 hardware truncates the count
mod 32 and wraps the subtraction), and the signed result is converted to
`uint64_t` by sign extension. -/
def cIntShlOneSub (Length : Nat) : Nat :=
  let shifted := (1 <<< (Length % 32)) % 2 ^ 32
  let dec := (shifted + (2 ^ 32 - 1)) % 2 ^ 32
  if dec < 2 ^ 31 then dec else dec + (2 ^ 64 - 2 ^ 32)

/-- `PTC_MEMORY_ACCESS_*` access kinds. -/
inductive MemAccessType where
  | unknown | normal | unaligned
  deriving DecidableEq, Repr

/-- Decoded `ptc_get_memory_access_size` results; `other` reaches the
`default: llvm_unreachable`. -/
inductive MemSize where
  | mo8 | mo16 | mo32 | mo64 | other
  deriving DecidableEq, Repr

/-- A decoded `PTCLoadStoreArg` together with the results of
`ptc_get_memory_access_size` and `ptc_is_sign_extended_load` on its
`type` field. -/
structure MemAccess where
  accessType : MemAccessType
  size : MemSize
  signExtend : Bool
  deriving DecidableEq, Repr

/-- Width in bits of a decoded access size. -/
def memWidth : MemSize → Option Nat
  | .mo8 => some 8
  | .mo16 => some 16
  | .mo32 => some 32
  | .mo64 => some 64
  | .other => none

/-- External collaborators of the dispatcher, as oracle functions: the
`ptc` decoders, the architecture descriptors, `VariableManager` (loads of
temporaries and of `env` fields) and `JumpTargetManager::isPCReg`. -/
structure Ctx where
  srcEndian : Bool
  tgtEndian : Bool
  defaultAlignment : Nat
  parseLoadStore : Nat → MemAccess
  envFieldWidth : Nat → Nat
  envFieldVal : Nat → Nat
  memVal : Nat → Nat
  argLabelId : Nat → Nat
  decodeCond : Nat → PTCCondition
  loadTemp : Nat → TValue
  isPCReg : Nat → Bool

/-- Block-level state of one function translation: the label table
(`LabeledBasicBlocks`), the function's basic-block order, the per-block
instruction count, the translator's `Blocks` vector and the builder's
insertion point.  Blocks are numeric ids; `nextId` is the next fresh
one. -/
structure FnState where
  labeledBlocks : List (String × Nat)
  blockOrder : List Nat
  content : List (Nat × Nat)
  blocks : List Nat
  nextId : Nat
  insertPoint : Nat
  deriving DecidableEq, Repr

/-- Number of instructions in block `b` (0 when unknown/new). -/
def contentOf (s : FnState) (b : Nat) : Nat := (s.content.lookup b).getD 0

/-- `InstructionTranslator::translateOpcode`, the opcode dispatcher.  The
`ok` result carries the produced values and the updated block state;
`error .recoverable` is the `std::errc::invalid_argument` return;
`error (.fatal _)` is an `llvm_unreachable`/failed assert/null
dereference. -/
def translateOpcode (ctx : Ctx) (s : FnState) (op : PTCOpcode)
    (cs : List Nat) (ins : List TValue) :
    Except TransErr (List TValue × FnState) :=
  let RegisterSize := getRegisterSize op
  -- RegisterSize values other than 0/32/64 would be llvm_unreachable, but
  -- getRegisterSize only produces those three; 0 leaves a null Type *.
  let RegisterType : Option Nat :=
    if RegisterSize = 32 then some 32
    else if RegisterSize = 64 then some 64
    else none
  match op with
  | .movi_i32 | .movi_i64 =>
    match mkConstInt RegisterType (carg cs 0) with
    | some c => .ok ([c], s)
    | none => .error (.fatal .nullTypeDeref)
  | .discard =>
    -- Overwrite the discarded temporary with a 0 of the register type;
    -- for this opcode the width table yields 0, so RegisterType is null.
    match mkConstInt RegisterType 0 with
    | some c => .ok ([c], s)
    | none => .error (.fatal .nullTypeDeref)
  | .mov_i32 | .mov_i64 =>
    match RegisterType with
    | some w => .ok ([createTrunc (arg ins 0) w], s)
    | none => .error (.fatal .nullTypeDeref)
  | .setcond_i32 | .setcond_i64 =>
    match conditionToPredicate (ctx.decodeCond (carg cs 0)) with
    | none => .error (.fatal .unknownComparison)
    | some p =>
      match evalICmp p (arg ins 0) (arg ins 1) with
      | none => .error (.fatal .icmpPredicateAssert)
      | some Compare =>
        match RegisterType with
        | some w => .ok ([createZExt Compare w], s)
        | none => .error (.fatal .nullTypeDeref)
  | .movcond_i32 | .movcond_i64 =>
    match conditionToPredicate (ctx.decodeCond (carg cs 0)) with
    | none => .error (.fatal .unknownComparison)
    | some p =>
      match evalICmp p (arg ins 0) (arg ins 1) with
      | none => .error (.fatal .icmpPredicateAssert)
      | some Compare =>
        .ok ([createSelect Compare (arg ins 2) (arg ins 3)], s)
  | .qemu_ld_i32 | .qemu_ld_i64 | .qemu_st_i32 | .qemu_st_i64 =>
    let MemoryAccess := ctx.parseLoadStore (carg cs 0)
    if MemoryAccess.accessType = .unknown then
      .error (.fatal .accessTypeUnknown)
    else
      match memWidth MemoryAccess.size with
      | none => .error (.fatal .unexpectedLoadSize)
      | some mw =>
        let doSwap := mw ≠ 8 ∧ ctx.srcEndian ≠ ctx.tgtEndian
        if op = .qemu_ld_i32 ∨ op = .qemu_ld_i64 then
          let Loaded := ctx.memVal ((arg ins 0).val) % 2 ^ mw
          let Loaded := if doSwap then byteswap mw Loaded else Loaded
          let LoadedV : TValue := ⟨mw, Loaded, false, false, false⟩
          match RegisterType with
          | some w =>
            if MemoryAccess.signExtend then .ok ([createSExt LoadedV w], s)
            else .ok ([createZExt LoadedV w], s)
          | none => .error (.fatal .nullTypeDeref)
        else if op = .qemu_st_i32 ∨ op = .qemu_st_i64 then
          -- the stored value is InArguments[0] truncated to the access
          -- width (and possibly byte swapped); guest memory itself is not
          -- part of the model
          .ok ([], s)
        else .error (.fatal .unknownLoadType)
  | .ld8u_i32 | .ld8s_i32 | .ld16u_i32 | .ld16s_i32 | .ld_i32
  | .ld8u_i64 | .ld8s_i64 | .ld16u_i64 | .ld16s_i64 | .ld32u_i64
  | .ld32s_i64 | .ld_i64 =>
    -- Base = dyn_cast<LoadInst>(InArguments[0])->getPointerOperand()
    if (arg ins 0).isEnv = false then .error .recoverable
    else
      let fw := ctx.envFieldWidth (carg cs 0)
      let LoadEnvField : TValue := ⟨fw, ctx.envFieldVal (carg cs 0) % 2 ^ fw, false, false, false⟩
      match RegisterType with
      | some w => .ok ([createZExtOrTrunc LoadEnvField w], s)
      | none => .error (.fatal .nullTypeDeref)
  | .st8_i32 | .st16_i32 | .st_i32
  | .st8_i64 | .st16_i64 | .st32_i64 | .st_i64 =>
    -- Base = dyn_cast<LoadInst>(InArguments[1])->getPointerOperand()
    if (arg ins 1).isEnv = false then .error .recoverable
    else
      -- the stored value is InArguments[0] zero-extended to the env
      -- field's type; the env store itself is not part of the model
      .ok ([], s)
  | .add_i32 | .sub_i32 | .mul_i32 | .div_i32 | .divu_i32 | .rem_i32
  | .remu_i32 | .and_i32 | .or_i32 | .xor_i32 | .shl_i32 | .shr_i32
  | .sar_i32 | .add_i64 | .sub_i64 | .mul_i64 | .div_i64 | .divu_i64
  | .rem_i64 | .remu_i64 | .and_i64 | .or_i64 | .xor_i64 | .shl_i64
  | .shr_i64 | .sar_i64 =>
    match opcodeToBinaryOp op with
    | none => .error (.fatal .notBinaryOperator)
    | some BinaryOp => .ok ([evalBinOp BinaryOp (arg ins 0) (arg ins 1)], s)
  | .div2_i32 | .divu2_i32 | .div2_i64 | .divu2_i64 =>
    let ops : Option (BinOp × BinOp) :=
      if op = .div2_i32 ∨ op = .div2_i64 then some (.sdiv, .srem)
      else if op = .divu2_i32 ∨ op = .divu2_i64 then some (.udiv, .urem)
      else none
    match ops with
    | none => .error (.fatal .unknownOperationType)
    | some (DivisionOp, RemainderOp) =>
      -- InArguments[1] (the most significant word) is ignored
      let Division := evalBinOp DivisionOp (arg ins 0) (arg ins 2)
      let Remainder := evalBinOp RemainderOp (arg ins 0) (arg ins 2)
      .ok ([Division, Remainder], s)
  | .rotr_i32 | .rotr_i64 | .rotl_i32 | .rotl_i64 =>
    match RegisterType with
    | none => .error (.fatal .nullTypeDeref)
    | some w =>
      let Bits : TValue := ⟨w, RegisterSize % 2 ^ w, true, false, false⟩
      let shiftOps : Option (BinOp × BinOp) :=
        if op = .rotl_i32 ∨ op = .rotl_i64 then some (.lshr, .shl)
        else if op = .rotr_i32 ∨ op = .rotr_i64 then some (.shl, .lshr)
        else none
      match shiftOps with
      | none => .error (.fatal .unexpectedOpcode)
      | some (FirstShiftOp, SecondShiftOp) =>
        let FirstShift := evalBinOp FirstShiftOp (arg ins 0) (arg ins 1)
        let SecondShiftAmount := evalBinOp .sub Bits (arg ins 1)
        let SecondShift := evalBinOp SecondShiftOp (arg ins 0) SecondShiftAmount
        .ok ([evalBinOp .or FirstShift SecondShift], s)
  | .deposit_i32 | .deposit_i64 =>
    let Position := carg cs 0 % 2 ^ 32
    if Position = RegisterSize then .ok ([arg ins 0], s)
    else
      let Length := carg cs 1 % 2 ^ 32
      let BitsOpt : Option Nat :=
        if Length = RegisterSize then getMaxValue RegisterSize
        else some (cIntShlOneSub Length)
      match BitsOpt with
      | none => .error (.fatal .badBitCount)
      | some Bits =>
        -- result = (t1 & ~(bits << position)) | ((t2 & bits) << position)
        let BaseMask := (2 ^ 64 - 1) ^^^ ((Bits <<< Position) % 2 ^ 64)
        let MaskedBase := evalBinOp .and (arg ins 0) (constLike (arg ins 0) BaseMask)
        let Deposit := evalBinOp .and (arg ins 1) (constLike (arg ins 1) Bits)
        let ShiftedDeposit := evalBinOp .shl Deposit (constLike Deposit Position)
        .ok ([evalBinOp .or MaskedBase ShiftedDeposit], s)
  | .ext8s_i32 | .ext16s_i32 | .ext8u_i32 | .ext16u_i32 | .ext8s_i64
  | .ext16s_i64 | .ext32s_i64 | .ext8u_i64 | .ext16u_i64 | .ext32u_i64 =>
    let SourceType : Option Nat :=
      match op with
      | .ext8s_i32 | .ext8u_i32 | .ext8s_i64 | .ext8u_i64 => some 8
      | .ext16s_i32 | .ext16u_i32 | .ext16s_i64 | .ext16u_i64 => some 16
      | .ext32s_i64 | .ext32u_i64 => some 32
      | _ => none
    match SourceType with
    | none => .error (.fatal .unexpectedOpcode)
    | some sw =>
      let Truncated := createTrunc (arg ins 0) sw
      match RegisterType with
      | none => .error (.fatal .nullTypeDeref)
      | some w =>
        match op with
        | .ext8s_i32 | .ext8s_i64 | .ext16s_i32 | .ext16s_i64
        | .ext32s_i64 => .ok ([createSExt Truncated w], s)
        | .ext8u_i32 | .ext8u_i64 | .ext16u_i32 | .ext16u_i64
        | .ext32u_i64 => .ok ([createZExt Truncated w], s)
        | _ => .error (.fatal .unexpectedOpcode)
  | .not_i32 | .not_i64 =>
    match getMaxValue RegisterSize with
    | none => .error (.fatal .badBitCount)
    | some m => .ok ([evalBinOp .xor (arg ins 0) (constLike (arg ins 0) m)], s)
  | .neg_i32 | .neg_i64 =>
    match mkConstInt RegisterType 0 with
    | none => .error (.fatal .nullTypeDeref)
    | some InitialValue => .ok ([evalBinOp .sub InitialValue (arg ins 0)], s)
  | .andc_i32 | .andc_i64 | .orc_i32 | .orc_i64 | .eqv_i32 | .eqv_i64 =>
    let ExternalOp : Option BinOp :=
      match op with
      | .andc_i32 | .andc_i64 => some .and
      | .orc_i32 | .orc_i64 => some .or
      | .eqv_i32 | .eqv_i64 => some .xor
      | _ => none
    match ExternalOp with
    | none => .error (.fatal .unexpectedOpcode)
    | some eop =>
      match getMaxValue RegisterSize with
      | none => .error (.fatal .badBitCount)
      | some m =>
        let Negate := evalBinOp .xor (arg ins 1) (constLike (arg ins 1) m)
        .ok ([evalBinOp eop (arg ins 0) Negate], s)
  | .nand_i32 | .nand_i64 =>
    match getMaxValue RegisterSize with
    | none => .error (.fatal .badBitCount)
    | some m =>
      let AndValue := evalBinOp .and (arg ins 0) (arg ins 1)
      .ok ([evalBinOp .xor AndValue (constLike AndValue m)], s)
  | .nor_i32 | .nor_i64 =>
    match getMaxValue RegisterSize with
    | none => .error (.fatal .badBitCount)
    | some m =>
      let OrValue := evalBinOp .or (arg ins 0) (arg ins 1)
      .ok ([evalBinOp .xor OrValue (constLike OrValue m)], s)
  | .bswap16_i32 | .bswap32_i32 | .bswap16_i64 | .bswap32_i64
  | .bswap64_i64 =>
    -- The switch assigning SwapType has no break statements: every case
    -- falls through to the next assignment and finally into
    -- `default: llvm_unreachable("Unexpected opcode")`.
    .error (.fatal .unexpectedOpcode)
  | .set_label =>
    let LabelId := ctx.argLabelId (carg cs 0)
    let Label := "L" ++ toString LabelId
    match s.labeledBlocks.lookup Label with
    | none =>
      let Fallthrough := s.nextId
      .ok ([], { s with
                   nextId := s.nextId + 1,
                   blockOrder := s.blockOrder ++ [Fallthrough],
                   labeledBlocks := s.labeledBlocks ++ [(Label, Fallthrough)],
                   blocks := s.blocks ++ [Fallthrough],
                   insertPoint := Fallthrough })
    | some Fallthrough =>
      -- assert(Fallthrough->begin() == Fallthrough->end())
      if contentOf s Fallthrough = 0 then
        -- removeFromParent + push_back: move the block to the bottom
        .ok ([], { s with
                     blockOrder := s.blockOrder.erase Fallthrough ++ [Fallthrough],
                     blocks := s.blocks ++ [Fallthrough],
                     insertPoint := Fallthrough })
      else .error (.fatal .labelBlockNotEmpty)
  | .br | .brcond_i32 | .brcond2_i32 | .brcond_i64 =>
    let LabelId := ctx.argLabelId (cs.getLastD 0)
    let Label := "L" ++ toString LabelId
    let Fallthrough := s.nextId
    let s1 : FnState :=
      { s with nextId := s.nextId + 1, blockOrder := s.blockOrder ++ [Fallthrough] }
    let ts : Nat × FnState :=
      match s1.labeledBlocks.lookup Label with
      | none =>
        (s1.nextId,
         { s1 with
             nextId := s1.nextId + 1,
             blockOrder := s1.blockOrder ++ [s1.nextId],
             labeledBlocks := s1.labeledBlocks ++ [(Label, s1.nextId)] })
      | some T => (T, s1)
    let s2 := ts.2
    if op = .br then
      .ok ([], { s2 with blocks := s2.blocks ++ [Fallthrough], insertPoint := Fallthrough })
    else if op = .brcond_i32 ∨ op = .brcond_i64 then
      match conditionToPredicate (ctx.decodeCond (carg cs 0)) with
      | none => .error (.fatal .unknownComparison)
      | some p =>
        match evalICmp p (arg ins 0) (arg ins 1) with
        | none => .error (.fatal .icmpPredicateAssert)
        | some _ =>
          .ok ([], { s2 with blocks := s2.blocks ++ [Fallthrough], insertPoint := Fallthrough })
    else .error (.fatal .unhandledOpcode)
  | .exit_tb =>
    let NextBB := s.nextId
    .ok ([], { s with
                 nextId := s.nextId + 1,
                 blockOrder := s.blockOrder ++ [NextBB],
                 blocks := s.blocks ++ [NextBB],
                 insertPoint := NextBB })
  | .goto_tb => .ok ([], s)
  | .add2_i32 | .sub2_i32 | .add2_i64 | .sub2_i64 =>
    match RegisterType with
    | none => .error (.fatal .nullTypeDeref)
    | some w =>
      match opcodeToBinaryOp op with
      | none => .error (.fatal .notBinaryOperator)
      | some BinaryOp =>
        let dw := RegisterSize * 2
        let FirstOperandLow := createSExt (arg ins 0) dw
        let FirstOperandHigh := createSExt (arg ins 1) dw
        let SecondOperandLow := createSExt (arg ins 2) dw
        let SecondOperandHigh := createSExt (arg ins 3) dw
        let FirstOperandHigh := evalBinOp .shl FirstOperandHigh (constLike FirstOperandHigh RegisterSize)
        let SecondOperandHigh := evalBinOp .shl SecondOperandHigh (constLike SecondOperandHigh RegisterSize)
        let FirstOperand := evalBinOp .or FirstOperandHigh FirstOperandLow
        let SecondOperand := evalBinOp .or SecondOperandHigh SecondOperandLow
        let Result := evalBinOp BinaryOp FirstOperand SecondOperand
        let ResultLow := createTrunc Result w
        let ShiftedResult := evalBinOp .lshr Result (constLike Result RegisterSize)
        let ResultHigh := createTrunc ShiftedResult w
        .ok ([ResultLow, ResultHigh], s)
  | .mulu2_i32 | .mulu2_i64 | .muls2_i32 | .muls2_i64 =>
    match RegisterType with
    | none => .error (.fatal .nullTypeDeref)
    | some w =>
      let dw := RegisterSize * 2
      let operands : Option (TValue × TValue) :=
        if op = .mulu2_i32 ∨ op = .mulu2_i64 then
          some (createZExt (arg ins 0) dw, createZExt (arg ins 1) dw)
        else if op = .muls2_i32 ∨ op = .muls2_i64 then
          some (createSExt (arg ins 0) dw, createSExt (arg ins 1) dw)
        else none
      match operands with
      | none => .error (.fatal .unexpectedOpcode)
      | some (FirstOperand, SecondOperand) =>
        let Result := evalBinOp .mul FirstOperand SecondOperand
        let ResultLow := createTrunc Result w
        let ShiftedResult := evalBinOp .lshr Result (constLike Result RegisterSize)
        let ResultHigh := createTrunc ShiftedResult w
        .ok ([ResultLow, ResultHigh], s)
  | .muluh_i32 | .mulsh_i32 | .muluh_i64 | .mulsh_i64 | .setcond2_i32
  | .trunc_shr_i32 => .error (.fatal .notImplemented)
  | .call | .debug_insn_start => .error (.fatal .unknownOpcode)

/-- The opcodes of the env-offset load arm (the memory accesses whose
address operand must trace back to the process-state base through
`InArguments[0]`). -/
def isEnvLoadOpcode : PTCOpcode → Bool
  | .ld8u_i32 | .ld8s_i32 | .ld16u_i32 | .ld16s_i32 | .ld_i32
  | .ld8u_i64 | .ld8s_i64 | .ld16u_i64 | .ld16s_i64 | .ld32u_i64
  | .ld32s_i64 | .ld_i64 => true
  | _ => false

/-- The opcodes of the env-offset store arm (the memory accesses whose
address operand must trace back to the process-state base through
`InArguments[1]`). -/
def isEnvStoreOpcode : PTCOpcode → Bool
  | .st8_i32 | .st16_i32 | .st_i32
  | .st8_i64 | .st16_i64 | .st32_i64 | .st_i64 => true
  | _ => false

/-- One decoded micro-operation (`PTCInstruction`, plain variant). -/
structure PTCInstr where
  opc : PTCOpcode
  inArgs : List Nat
  constArgs : List Nat
  outArgs : List Nat
  deriving Repr

/-- Code emitted by the driving loop at the current insertion point when
the dispatcher reports a recoverable failure. -/
inductive Event where
  | callAbort
  | unreachable
  deriving DecidableEq, Repr

/-- Observable outcome of `InstructionTranslator::translate` on one
micro-operation: the trap events emitted, whether the micro-operation is
terminal for the block (the `bool` return), the stores to the output
temporaries, and the addresses passed to
`JumpTargetManager::getBlockAt`. -/
structure TrOut where
  events : List Event
  terminal : Bool
  stores : List (Nat × TValue)
  discovered : List Nat
  deriving DecidableEq, Repr

/-- The store loop of `InstructionTranslator::translate`: stores each
result into its output temporary and, when the destination is the PC
register, the value is a ConstantInt and it differs from the current PC,
asks `JumpTargetManager::getBlockAt` for a block at that address. -/
def storeResults (ctx : Ctx) (PC : Nat) (outs : List Nat) (vals : List TValue) :
    List (Nat × TValue) × List Nat :=
  let pairs := outs.zip vals
  (pairs,
   pairs.filterMap fun p =>
     if ctx.isPCReg p.1 then
       if p.2.isConst then
         if PC ≠ p.2.val then some p.2.val else none
       else none
     else none)

/-- `InstructionTranslator::translate`: drives one dispatcher call; on a
recoverable failure it emits a call to `abort` followed by `unreachable`
and reports the micro-operation as terminal, otherwise it stores the
results (their number is asserted to match the output-argument count). -/
def translate (ctx : Ctx) (s : FnState) (I : PTCInstr) (PC : Nat) :
    Except FatalReason (TrOut × FnState) :=
  let ins := I.inArgs.map ctx.loadTemp
  match translateOpcode ctx s I.opc I.constArgs ins with
  | .error .recoverable =>
    .ok ({ events := [.callAbort, .unreachable], terminal := true,
           stores := [], discovered := [] }, s)
  | .error (.fatal r) => .error r
  | .ok (vals, s1) =>
    if vals.length = I.outArgs.length then
      let sd := storeResults ctx PC I.outArgs vals
      .ok ({ events := [], terminal := false, stores := sd.1,
             discovered := sd.2 }, s1)
    else .error .resultCountMismatch

/-- A `newpc` marker call: its first argument is the instruction's
address, its second the span length (provisionally 0). -/
structure NewPCMarker where
  startPC : Nat
  length : Nat
  deriving DecidableEq, Repr

/-- `InstructionTranslator::closeLastInstruction`: asserts a marker is
open and that the closing address is strictly greater than its start,
finalizes the length to the difference, and clears `LastMarker`. -/
def closeLastInstruction (LastMarker : Option NewPCMarker) (PC : Nat) :
    Except FatalReason (NewPCMarker × Option NewPCMarker) :=
  match LastMarker with
  | none => .error .lastMarkerNull
  | some M =>
    if PC > M.startPC then
      .ok ({ M with length := PC - M.startPC }, none)
    else .error .nonIncreasingPC

/-- Modelled from the spec: rotate-left as the spec states it,
`(x >> (w-n)) | (x << n)` computed modulo `2^w` with logical right
shift. -/
def specRotateLeft (w x n : Nat) : Nat :=
  (x >>> (w - n)) ||| ((x <<< n) % 2 ^ w)

/-- Modelled from the spec: rotate-right as the spec states it,
`(x << (w-n)) | (x >> n)` computed modulo `2^w` with logical right
shift. -/
def specRotateRight (w x n : Nat) : Nat :=
  ((x <<< (w - n)) % 2 ^ w) ||| (x >>> n)

/-- Modelled from the spec: the byte-swap result the spec states
(truncate to the swap width, byte-reverse, zero-extend back). -/
def specByteSwap (sw x : Nat) : Nat := byteswap sw (x % 2 ^ sw)

/-- Modelled from the spec: the deposit result the spec states, with
`mask l` being `l` ones. -/
def specDeposit (w p l x y : Nat) : Nat :=
  if p = w then x
  else
    ((x &&& ((2 ^ w - 1) ^^^ (((2 ^ l - 1) <<< p) % 2 ^ w)))
      ||| (((y &&& (2 ^ l - 1)) <<< p) % 2 ^ w)) % 2 ^ w

/-- A concrete oracle environment for closed evaluations. -/
def ctx0 : Ctx where
  srcEndian := false
  tgtEndian := false
  defaultAlignment := 4
  parseLoadStore := fun _ => ⟨.normal, .mo32, false⟩
  envFieldWidth := fun _ => 32
  envFieldVal := fun _ => 0
  memVal := fun _ => 0
  argLabelId := fun n => n
  decodeCond := fun _ => .eq
  loadTemp := fun _ => ⟨64, 0, false, false, false⟩
  isPCReg := fun _ => false

/-- A concrete initial block state for closed evaluations. -/
def st0 : FnState where
  labeledBlocks := []
  blockOrder := [0]
  content := []
  blocks := []
  nextId := 1
  insertPoint := 0

/-- A block state in which label L0 is bound to block 7, which already
holds three instructions. -/
def st1 : FnState where
  labeledBlocks := [("L0", 7)]
  blockOrder := [1, 7]
  content := [(7, 3)]
  blocks := []
  nextId := 8
  insertPoint := 1

/-- A block state in which label L0 is bound to the still-empty block 7,
which is not the last block of the function. -/
def st2 : FnState where
  labeledBlocks := [("L0", 7)]
  blockOrder := [7, 1]
  content := []
  blocks := []
  nextId := 8
  insertPoint := 1

/-! ### Helper lemmas -/

theorem rotl_arm_lt {w x n : Nat} (hx : x < 2 ^ w) :
    (x >>> n) ||| ((x <<< (w - n)) % 2 ^ w) < 2 ^ w := by
  apply Nat.or_lt_two_pow
  · calc x >>> n = x / 2 ^ n := Nat.shiftRight_eq_div_pow x n
    _ ≤ x := Nat.div_le_self x (2 ^ n)
    _ < 2 ^ w := hx
  · exact Nat.mod_lt _ (Nat.pos_pow_of_pos w (by omega))

theorem rot_cancel {w x n : Nat} (hx : x < 2 ^ w) (hn : n < w) :
    let y := (x >>> n) ||| ((x <<< (w - n)) % 2 ^ w)
    ((y <<< n) % 2 ^ w) ||| (y >>> (w - n)) = x := by
  intro y
  have hy : y < 2 ^ w := rotl_arm_lt hx
  apply Nat.eq_of_testBit_eq
  intro i
  by_cases hi : i < w
  · have hbit : ∀ j, w ≤ j → x.testBit j = false := by
      intro j hj
      exact Nat.testBit_lt_two_pow (lt_of_lt_of_le hx (Nat.pow_le_pow_right (by omega) hj))
    have hybit : ∀ j, w ≤ j → y.testBit j = false := by
      intro j hj
      exact Nat.testBit_lt_two_pow (lt_of_lt_of_le hy (Nat.pow_le_pow_right (by omega) hj))
    simp only [y, Nat.testBit_lor, Nat.testBit_mod_two_pow, Nat.testBit_shiftLeft,
      Nat.testBit_shiftRight, ge_iff_le]
    by_cases hni : n ≤ i
    · have h1 : ¬ (w - n ≤ i - n) := by omega
      have h2 : x.testBit (n + (i - n)) = x.testBit i := by
        congr 1
        omega
      have h3 : x.testBit (n + (w - n + i)) = false := hbit _ (by omega)
      simp [hi, hni, h1, h2, h3]
    · have h1 : x.testBit (n + (w - n + i)) = false := hbit _ (by omega)
      have h2 : w - n ≤ w - n + i := by omega
      have h3 : i - n = 0 ∨ True := by omega
      have h4 : w - n + i - (w - n) = i := by omega
      have h5 : w - n + i < w := by omega
      simp [hi, hni, h1, h2, h4, h5]
  · have h1 : (((y <<< n) % 2 ^ w) ||| (y >>> (w - n))).testBit i = false := by
      apply Nat.testBit_lt_two_pow
      apply lt_of_lt_of_le ?_ (Nat.pow_le_pow_right (by omega) (by omega : w ≤ i))
      apply Nat.or_lt_two_pow
      · exact Nat.mod_lt _ (Nat.pos_pow_of_pos w (by omega))
      · calc y >>> (w - n) = y / 2 ^ (w - n) := Nat.shiftRight_eq_div_pow y (w - n)
        _ ≤ y := Nat.div_le_self y _
        _ < 2 ^ w := hy
    have h2 : x.testBit i = false :=
      Nat.testBit_lt_two_pow (lt_of_lt_of_le hx (Nat.pow_le_pow_right (by omega) (by omega)))
    rw [h1, h2]

theorem toInt_eq_of_dvd64 {R : Nat} {z : Int} (hR : R < 2 ^ 64)
    (hlo : -(2 ^ 62) ≤ z) (hhi : z ≤ 2 ^ 62)
    (hd : ((2 : Int) ^ 64) ∣ ((R : Int) - z)) : toInt 64 R = z := by
  unfold toInt
  split <;> rename_i h <;> omega

theorem toInt_eq_of_dvd128 {R : Nat} {z : Int} (hR : R < 2 ^ 128)
    (hlo : -(2 ^ 126) ≤ z) (hhi : z ≤ 2 ^ 126)
    (hd : ((2 : Int) ^ 128) ∣ ((R : Int) - z)) : toInt 128 R = z := by
  unfold toInt
  split <;> rename_i h <;> omega

theorem rotl32_arm (ctx : Ctx) (s : FnState) (cs : List Nat) (X N : TValue) :
    translateOpcode ctx s .rotl_i32 cs [X, N] =
      .ok ([evalBinOp .or (evalBinOp .lshr X N)
             (evalBinOp .shl X (evalBinOp .sub ⟨32, 32 % 2 ^ 32, true, false, false⟩ N))], s) := rfl

theorem rotr32_arm (ctx : Ctx) (s : FnState) (cs : List Nat) (X N : TValue) :
    translateOpcode ctx s .rotr_i32 cs [X, N] =
      .ok ([evalBinOp .or (evalBinOp .shl X N)
             (evalBinOp .lshr X (evalBinOp .sub ⟨32, 32 % 2 ^ 32, true, false, false⟩ N))], s) := rfl

theorem rotl64_arm (ctx : Ctx) (s : FnState) (cs : List Nat) (X N : TValue) :
    translateOpcode ctx s .rotl_i64 cs [X, N] =
      .ok ([evalBinOp .or (evalBinOp .lshr X N)
             (evalBinOp .shl X (evalBinOp .sub ⟨64, 64 % 2 ^ 64, true, false, false⟩ N))], s) := rfl

theorem rotr64_arm (ctx : Ctx) (s : FnState) (cs : List Nat) (X N : TValue) :
    translateOpcode ctx s .rotr_i64 cs [X, N] =
      .ok ([evalBinOp .or (evalBinOp .shl X N)
             (evalBinOp .lshr X (evalBinOp .sub ⟨64, 64 % 2 ^ 64, true, false, false⟩ N))], s) := rfl

theorem mulu2_32_arm (ctx : Ctx) (s : FnState) (cs : List Nat) (a b : Nat) :
    translateOpcode ctx s .mulu2_i32 cs
        [⟨32, a, false, false, false⟩, ⟨32, b, false, false, false⟩] =
      .ok ([⟨32, ((a * b) % 2 ^ 64) % 2 ^ 32, false, false, false⟩,
            ⟨32, (((a * b) % 2 ^ 64) >>> 32) % 2 ^ 32, false, false, false⟩], s) := rfl

theorem mulu2_64_arm (ctx : Ctx) (s : FnState) (cs : List Nat) (a b : Nat) :
    translateOpcode ctx s .mulu2_i64 cs
        [⟨64, a, false, false, false⟩, ⟨64, b, false, false, false⟩] =
      .ok ([⟨64, ((a * b) % 2 ^ 128) % 2 ^ 64, false, false, false⟩,
            ⟨64, (((a * b) % 2 ^ 128) >>> 64) % 2 ^ 64, false, false, false⟩], s) := rfl

theorem muls2_32_arm (ctx : Ctx) (s : FnState) (cs : List Nat) (a b : Nat) :
    translateOpcode ctx s .muls2_i32 cs
        [⟨32, a, false, false, false⟩, ⟨32, b, false, false, false⟩] =
      .ok ([⟨32, ((sextVal 32 64 a * sextVal 32 64 b) % 2 ^ 64) % 2 ^ 32, false, false, false⟩,
            ⟨32, (((sextVal 32 64 a * sextVal 32 64 b) % 2 ^ 64) >>> 32) % 2 ^ 32,
                 false, false, false⟩], s) := rfl

theorem muls2_64_arm (ctx : Ctx) (s : FnState) (cs : List Nat) (a b : Nat) :
    translateOpcode ctx s .muls2_i64 cs
        [⟨64, a, false, false, false⟩, ⟨64, b, false, false, false⟩] =
      .ok ([⟨64, ((sextVal 64 128 a * sextVal 64 128 b) % 2 ^ 128) % 2 ^ 64, false, false, false⟩,
            ⟨64, (((sextVal 64 128 a * sextVal 64 128 b) % 2 ^ 128) >>> 64) % 2 ^ 64,
                 false, false, false⟩], s) := rfl

theorem sext_dvd32 (a : Nat) :
    ((2 : Int) ^ 64) ∣ ((sextVal 32 64 a : Int) - toInt 32 a) := by
  unfold sextVal toInt
  norm_num
  split <;> omega

theorem sext_dvd64 (a : Nat) :
    ((2 : Int) ^ 128) ∣ ((sextVal 64 128 a : Int) - toInt 64 a) := by
  unfold sextVal toInt
  norm_num
  split <;> omega

theorem toInt32_bounds (a : Nat) (ha : a < 2 ^ 32) :
    -(2 ^ 31) ≤ toInt 32 a ∧ toInt 32 a < 2 ^ 31 := by
  unfold toInt
  norm_num
  split <;> omega

theorem toInt64_bounds (a : Nat) (ha : a < 2 ^ 64) :
    -(2 ^ 63) ≤ toInt 64 a ∧ toInt 64 a < 2 ^ 63 := by
  unfold toInt
  norm_num
  split <;> omega

theorem mul_range {A B M : Int} (hA1 : -M ≤ A) (hA2 : A < M)
    (hB1 : -M ≤ B) (hB2 : B < M) :
    -(M * M) ≤ A * B ∧ A * B ≤ M * M := by
  constructor <;> nlinarith

theorem muls2_core32 (a b : Nat) (ha : a < 2 ^ 32) (hb : b < 2 ^ 32) :
    (sextVal 32 64 a * sextVal 32 64 b) % 2 ^ 64 < 2 ^ 64 ∧
    toInt 64 ((sextVal 32 64 a * sextVal 32 64 b) % 2 ^ 64) =
      toInt 32 a * toInt 32 b := by
  have hR : (sextVal 32 64 a * sextVal 32 64 b) % 2 ^ 64 < 2 ^ 64 :=
    Nat.mod_lt _ (by norm_num)
  refine ⟨hR, ?_⟩
  obtain ⟨hA1, hA2⟩ := toInt32_bounds a ha
  obtain ⟨hB1, hB2⟩ := toInt32_bounds b hb
  obtain ⟨hm1, hm2⟩ := mul_range hA1 hA2 hB1 hB2
  apply toInt_eq_of_dvd64 hR (by norm_num at hm1 ⊢; omega) (by norm_num at hm2 ⊢; omega)
  have e3 : ((2 : Int) ^ 64) ∣
      ((sextVal 32 64 a : Int) * (sextVal 32 64 b : Int) - toInt 32 a * toInt 32 b) := by
    have h : (sextVal 32 64 a : Int) * (sextVal 32 64 b : Int) - toInt 32 a * toInt 32 b =
        ((sextVal 32 64 a : Int) - toInt 32 a) * (sextVal 32 64 b : Int) +
          toInt 32 a * ((sextVal 32 64 b : Int) - toInt 32 b) := by ring
    rw [h]
    exact dvd_add (dvd_mul_of_dvd_left (sext_dvd32 a) _)
      (dvd_mul_of_dvd_right (sext_dvd32 b) _)
  have e4 : ((2 : Int) ^ 64) ∣
      ((((sextVal 32 64 a * sextVal 32 64 b) % 2 ^ 64 : Nat) : Int) -
        ((sextVal 32 64 a * sextVal 32 64 b : Nat) : Int)) := by
    generalize (sextVal 32 64 a * sextVal 32 64 b) = S
    omega
  have e5 : (((sextVal 32 64 a * sextVal 32 64 b) % 2 ^ 64 : Nat) : Int) -
      toInt 32 a * toInt 32 b =
      ((((sextVal 32 64 a * sextVal 32 64 b) % 2 ^ 64 : Nat) : Int) -
        ((sextVal 32 64 a * sextVal 32 64 b : Nat) : Int)) +
      ((sextVal 32 64 a : Int) * (sextVal 32 64 b : Int) - toInt 32 a * toInt 32 b) := by
    push_cast
    ring
  rw [e5]
  exact dvd_add e4 e3

set_option maxRecDepth 8000 in
theorem muls2_core64 (a b : Nat) (ha : a < 2 ^ 64) (hb : b < 2 ^ 64) :
    (sextVal 64 128 a * sextVal 64 128 b) % 2 ^ 128 < 2 ^ 128 ∧
    toInt 128 ((sextVal 64 128 a * sextVal 64 128 b) % 2 ^ 128) =
      toInt 64 a * toInt 64 b := by
  have hR : (sextVal 64 128 a * sextVal 64 128 b) % 2 ^ 128 < 2 ^ 128 :=
    Nat.mod_lt _ (by norm_num)
  refine ⟨hR, ?_⟩
  obtain ⟨hA1, hA2⟩ := toInt64_bounds a ha
  obtain ⟨hB1, hB2⟩ := toInt64_bounds b hb
  obtain ⟨hm1, hm2⟩ := mul_range hA1 hA2 hB1 hB2
  apply toInt_eq_of_dvd128 hR (by norm_num at hm1 ⊢; omega) (by norm_num at hm2 ⊢; omega)
  have e3 : ((2 : Int) ^ 128) ∣
      ((sextVal 64 128 a : Int) * (sextVal 64 128 b : Int) - toInt 64 a * toInt 64 b) := by
    have h : (sextVal 64 128 a : Int) * (sextVal 64 128 b : Int) - toInt 64 a * toInt 64 b =
        ((sextVal 64 128 a : Int) - toInt 64 a) * (sextVal 64 128 b : Int) +
          toInt 64 a * ((sextVal 64 128 b : Int) - toInt 64 b) := by ring
    rw [h]
    exact dvd_add (dvd_mul_of_dvd_left (sext_dvd64 a) _)
      (dvd_mul_of_dvd_right (sext_dvd64 b) _)
  have e4 : ((2 : Int) ^ 128) ∣
      ((((sextVal 64 128 a * sextVal 64 128 b) % 2 ^ 128 : Nat) : Int) -
        ((sextVal 64 128 a * sextVal 64 128 b : Nat) : Int)) := by
    generalize (sextVal 64 128 a * sextVal 64 128 b) = S
    omega
  have e5 : (((sextVal 64 128 a * sextVal 64 128 b) % 2 ^ 128 : Nat) : Int) -
      toInt 64 a * toInt 64 b =
      ((((sextVal 64 128 a * sextVal 64 128 b) % 2 ^ 128 : Nat) : Int) -
        ((sextVal 64 128 a * sextVal 64 128 b : Nat) : Int)) +
      ((sextVal 64 128 a : Int) * (sextVal 64 128 b : Int) - toInt 64 a * toInt 64 b) := by
    push_cast
    ring
  rw [e5]
  exact dvd_add e4 e3

/-! ### Claim theorems -/

/-- Claim C1: false on the code.  The rotate arm assigns the logical
right shift as the first shift of rotate-left and the left shift as its
second, so the translated rotate-left of x = 1 by n = 1 at width 32 is
(1 >> 1) | (1 << 31) = 2^31 (a right rotation), while the formula
claimed for rotate-left, (x >> (w-n)) | (x << n) mod 2^w, gives 2;
symmetrically the translated rotate-right gives 2 while the claimed
rotate-right formula gives 2^31. -/
theorem rotate_shift_directions_swapped :
    translateOpcode ctx0 st0 .rotl_i32 []
        [⟨32, 1, false, false, false⟩, ⟨32, 1, false, false, false⟩] =
      .ok ([⟨32, 2147483648, false, false, false⟩], st0) ∧
    specRotateLeft 32 1 1 = 2 ∧
    translateOpcode ctx0 st0 .rotr_i32 []
        [⟨32, 1, false, false, false⟩, ⟨32, 1, false, false, false⟩] =
      .ok ([⟨32, 2, false, false, false⟩], st0) ∧
    specRotateRight 32 1 1 = 2147483648 :=
  ⟨rfl, rfl, rfl, rfl⟩

/-- Claim C2: false on the code.  The switch assigning the swap type has
no break statements, so every byte-swap opcode falls through into
`default: llvm_unreachable`: translation of every byte-swap
micro-operation is fatal, never producing the claimed
truncate/byte-reverse/zero-extend result (shown at 0x1234 for the 16-bit
swap, which would be 0x3412). -/
theorem bswap_translation_always_fatal :
    translateOpcode ctx0 st0 .bswap16_i32 [] [⟨32, 0x1234, false, false, false⟩] =
      .error (.fatal .unexpectedOpcode) ∧
    translateOpcode ctx0 st0 .bswap32_i32 [] [⟨32, 0x1234, false, false, false⟩] =
      .error (.fatal .unexpectedOpcode) ∧
    translateOpcode ctx0 st0 .bswap16_i64 [] [⟨64, 0x1234, false, false, false⟩] =
      .error (.fatal .unexpectedOpcode) ∧
    translateOpcode ctx0 st0 .bswap32_i64 [] [⟨64, 0x1234, false, false, false⟩] =
      .error (.fatal .unexpectedOpcode) ∧
    translateOpcode ctx0 st0 .bswap64_i64 [] [⟨64, 0x1234, false, false, false⟩] =
      .error (.fatal .unexpectedOpcode) ∧
    specByteSwap 16 0x1234 = 0x3412 :=
  ⟨rfl, rfl, rfl, rfl, rfl, rfl⟩

/-- Claim C3: false on the code.  The deposit mask is computed as
`(1 << Length) - 1` with a 32-bit int literal, which is undefined
behaviour for lengths of 32 and more (x86 truncates the count mod 32):
for deposit_i64 with position 0 and length 32 the mask evaluates to 0
and the translated result of depositing in1 = 1 into in0 = 0 is 0,
while the claimed formula with mask(32) = 2^32 - 1 gives 1. -/
theorem deposit_length32_mask_broken :
    translateOpcode ctx0 st0 .deposit_i64 [0, 32]
        [⟨64, 0, false, false, false⟩, ⟨64, 1, false, false, false⟩] =
      .ok ([⟨64, 0, false, false, false⟩], st0) ∧
    specDeposit 64 0 32 0 1 = 1 :=
  ⟨rfl, rfl⟩

/-- Claim C4: false on the code.  The width table maps the discard
opcode to 0, so no register type is selected and the dispatcher passes a
null `Type *` to `ConstantInt::get`: translating discard is a fatal null
dereference, not a successful zero of the declared width. -/
theorem discard_translation_fatal :
    getRegisterSize .discard = 0 ∧
    translateOpcode ctx0 st0 .discard [] [] = .error (.fatal .nullTypeDeref) :=
  ⟨rfl, rfl⟩

/-- Claim C8: closing the open instruction-boundary marker opened at A
at address B finalizes the length to exactly B - A when B > A, and is a
fatal assertion failure whenever B ≤ A. -/
theorem closeLastInstruction_length_monotonicity :
    ∀ (A B len : Nat),
      (B > A → closeLastInstruction (some ⟨A, len⟩) B = .ok (⟨A, B - A⟩, none)) ∧
      (B ≤ A → closeLastInstruction (some ⟨A, len⟩) B = .error .nonIncreasingPC) := by
  intro A B len
  constructor
  · intro h
    simp only [closeLastInstruction]
    rw [if_pos h]
  · intro h
    simp only [closeLastInstruction]
    rw [if_neg (by omega)]

/-- Witness for C8 at the concrete pairs (100, 104) and (100, 100). -/
theorem closeLastInstruction_length_monotonicity_witness :
    closeLastInstruction (some ⟨100, 0⟩) 104 = .ok (⟨100, 4⟩, none) ∧
    closeLastInstruction (some ⟨100, 0⟩) 100 = .error .nonIncreasingPC :=
  ⟨(closeLastInstruction_length_monotonicity 100 104 0).1 (by decide),
   (closeLastInstruction_length_monotonicity 100 100 0).2 (by decide)⟩

/-- Claim C9, counterexample: translating set_label for label L0 whose
block 7 already exists in the label table and already holds three
instructions does not succeed: the emptiness assertion on the existing
block fails fatally. -/
theorem set_label_nonempty_block_asserts :
    translateOpcode ctx0 st1 .set_label [0] [] =
      .error (.fatal .labelBlockNotEmpty) :=
  rfl

/-- Claim C9 as amended: when the label's block already exists and is
still empty, translation succeeds, the existing block (same block, not a
replacement) is relocated to the end of the function's block order and
the insertion point advances into it; if the existing block already has
content, translation fails fatally on the emptiness assertion. -/
theorem set_label_existing_block_relocated :
    ∀ (ctx : Ctx) (s : FnState) (cs : List Nat) (ins : List TValue) (b : Nat),
      s.labeledBlocks.lookup ("L" ++ toString (ctx.argLabelId (carg cs 0))) = some b →
      (contentOf s b = 0 →
        translateOpcode ctx s .set_label cs ins =
          .ok ([], { s with blockOrder := s.blockOrder.erase b ++ [b],
                            blocks := s.blocks ++ [b],
                            insertPoint := b })) ∧
      (contentOf s b ≠ 0 →
        translateOpcode ctx s .set_label cs ins =
          .error (.fatal .labelBlockNotEmpty)) := by
  intro ctx s cs ins b hl
  constructor <;> intro hc <;> simp [translateOpcode, hl, hc]

/-- Witness for the amended C9: in st2, label L0 maps to the empty block
7 sitting before block 1; defining L0 moves block 7 to the end and the
insertion point enters it; in st1 the same block has content and the
translation is fatal. -/
theorem set_label_existing_block_relocated_witness :
    translateOpcode ctx0 st2 .set_label [0] [] =
      .ok ([], { st2 with blockOrder := [1, 7], blocks := [7], insertPoint := 7 }) ∧
    translateOpcode ctx0 st1 .set_label [0] [] =
      .error (.fatal .labelBlockNotEmpty) :=
  ⟨(set_label_existing_block_relocated ctx0 st2 [0] [] 7 rfl).1 rfl,
   (set_label_existing_block_relocated ctx0 st1 [0] [] 7 rfl).2 (by decide)⟩

/-- Claim C6: for every wide-multiply micro-operation the produced pair
(low, high) reconstructs the exact product at double precision:
high * 2^w + low = a * b for the zero-extended (unsigned) variants, and
the two's-complement reading of high:low at 2w bits equals the product
of the two's-complement readings of a and b for the sign-extended
(signed) variants. -/
theorem wide_multiply_reconstruction :
    ∀ (ctx : Ctx) (s : FnState) (cs : List Nat) (a b : Nat),
      (a < 2 ^ 32 → b < 2 ^ 32 →
        (∃ lo hi : Nat,
          translateOpcode ctx s .mulu2_i32 cs
              [⟨32, a, false, false, false⟩, ⟨32, b, false, false, false⟩] =
            .ok ([⟨32, lo, false, false, false⟩, ⟨32, hi, false, false, false⟩], s) ∧
          hi * 2 ^ 32 + lo = a * b) ∧
        (∃ lo hi : Nat,
          translateOpcode ctx s .muls2_i32 cs
              [⟨32, a, false, false, false⟩, ⟨32, b, false, false, false⟩] =
            .ok ([⟨32, lo, false, false, false⟩, ⟨32, hi, false, false, false⟩], s) ∧
          toInt 64 (hi * 2 ^ 32 + lo) = toInt 32 a * toInt 32 b)) ∧
      (a < 2 ^ 64 → b < 2 ^ 64 →
        (∃ lo hi : Nat,
          translateOpcode ctx s .mulu2_i64 cs
              [⟨64, a, false, false, false⟩, ⟨64, b, false, false, false⟩] =
            .ok ([⟨64, lo, false, false, false⟩, ⟨64, hi, false, false, false⟩], s) ∧
          hi * 2 ^ 64 + lo = a * b) ∧
        (∃ lo hi : Nat,
          translateOpcode ctx s .muls2_i64 cs
              [⟨64, a, false, false, false⟩, ⟨64, b, false, false, false⟩] =
            .ok ([⟨64, lo, false, false, false⟩, ⟨64, hi, false, false, false⟩], s) ∧
          toInt 128 (hi * 2 ^ 64 + lo) = toInt 64 a * toInt 64 b)) := by
  intro ctx s cs a b
  constructor
  · intro ha hb
    have hab : a * b < 2 ^ 64 := by
      calc a * b ≤ (2 ^ 32 - 1) * (2 ^ 32 - 1) := Nat.mul_le_mul (by omega) (by omega)
      _ < 2 ^ 64 := by norm_num
    constructor
    · refine ⟨(a * b) % 2 ^ 32, (a * b) / 2 ^ 32, ?_, by omega⟩
      rw [mulu2_32_arm, Nat.mod_eq_of_lt hab, Nat.shiftRight_eq_div_pow,
        Nat.mod_eq_of_lt (by omega : a * b / 2 ^ 32 < 2 ^ 32)]
    · obtain ⟨hR, hval⟩ := muls2_core32 a b ha hb
      refine ⟨(sextVal 32 64 a * sextVal 32 64 b) % 2 ^ 64 % 2 ^ 32,
              ((sextVal 32 64 a * sextVal 32 64 b) % 2 ^ 64) >>> 32 % 2 ^ 32,
              muls2_32_arm ctx s cs a b, ?_⟩
      have hrec : ((sextVal 32 64 a * sextVal 32 64 b) % 2 ^ 64) >>> 32 % 2 ^ 32 * 2 ^ 32 +
          (sextVal 32 64 a * sextVal 32 64 b) % 2 ^ 64 % 2 ^ 32 =
          (sextVal 32 64 a * sextVal 32 64 b) % 2 ^ 64 := by
        rw [Nat.shiftRight_eq_div_pow]
        omega
      rw [hrec, hval]
  · intro ha hb
    have hab : a * b < 2 ^ 128 := by
      calc a * b ≤ (2 ^ 64 - 1) * (2 ^ 64 - 1) := Nat.mul_le_mul (by omega) (by omega)
      _ < 2 ^ 128 := by norm_num
    constructor
    · refine ⟨(a * b) % 2 ^ 64, (a * b) / 2 ^ 64, ?_, by omega⟩
      rw [mulu2_64_arm, Nat.mod_eq_of_lt hab, Nat.shiftRight_eq_div_pow,
        Nat.mod_eq_of_lt (by omega : a * b / 2 ^ 64 < 2 ^ 64)]
    · obtain ⟨hR, hval⟩ := muls2_core64 a b ha hb
      refine ⟨(sextVal 64 128 a * sextVal 64 128 b) % 2 ^ 128 % 2 ^ 64,
              ((sextVal 64 128 a * sextVal 64 128 b) % 2 ^ 128) >>> 64 % 2 ^ 64,
              muls2_64_arm ctx s cs a b, ?_⟩
      have hrec : ((sextVal 64 128 a * sextVal 64 128 b) % 2 ^ 128) >>> 64 % 2 ^ 64 * 2 ^ 64 +
          (sextVal 64 128 a * sextVal 64 128 b) % 2 ^ 128 % 2 ^ 64 =
          (sextVal 64 128 a * sextVal 64 128 b) % 2 ^ 128 := by
        rw [Nat.shiftRight_eq_div_pow]
        omega
      rw [hrec, hval]

/-- Witness for C6 at a = 3, b = 5 (both widths, both variants). -/
theorem wide_multiply_reconstruction_witness :
    ((∃ lo hi : Nat,
      translateOpcode ctx0 st0 .mulu2_i32 []
          [⟨32, 3, false, false, false⟩, ⟨32, 5, false, false, false⟩] =
        .ok ([⟨32, lo, false, false, false⟩, ⟨32, hi, false, false, false⟩], st0) ∧
      hi * 2 ^ 32 + lo = 3 * 5) ∧
    (∃ lo hi : Nat,
      translateOpcode ctx0 st0 .muls2_i32 []
          [⟨32, 3, false, false, false⟩, ⟨32, 5, false, false, false⟩] =
        .ok ([⟨32, lo, false, false, false⟩, ⟨32, hi, false, false, false⟩], st0) ∧
      toInt 64 (hi * 2 ^ 32 + lo) = toInt 32 3 * toInt 32 5)) ∧
    ((∃ lo hi : Nat,
      translateOpcode ctx0 st0 .mulu2_i64 []
          [⟨64, 3, false, false, false⟩, ⟨64, 5, false, false, false⟩] =
        .ok ([⟨64, lo, false, false, false⟩, ⟨64, hi, false, false, false⟩], st0) ∧
      hi * 2 ^ 64 + lo = 3 * 5) ∧
    (∃ lo hi : Nat,
      translateOpcode ctx0 st0 .muls2_i64 []
          [⟨64, 3, false, false, false⟩, ⟨64, 5, false, false, false⟩] =
        .ok ([⟨64, lo, false, false, false⟩, ⟨64, hi, false, false, false⟩], st0) ∧
      toInt 128 (hi * 2 ^ 64 + lo) = toInt 64 3 * toInt 64 5)) :=
  ⟨(wide_multiply_reconstruction ctx0 st0 [] 3 5).1 (by norm_num) (by norm_num),
   (wide_multiply_reconstruction ctx0 st0 [] 3 5).2 (by norm_num) (by norm_num)⟩

/-- Claim C10: after a successful translation, an address A is passed to
the control-flow-discovery collaborator (`getBlockAt`) by the store loop
exactly when some output slot is the program-counter slot, the value
stored into it is a compile-time constant, its value is A, and A differs
from the current instruction's PC. -/
theorem discovery_request_iff :
    ∀ (ctx : Ctx) (PC : Nat) (outs : List Nat) (vals : List TValue) (A : Nat),
      A ∈ (storeResults ctx PC outs vals).2 ↔
        ∃ p, p ∈ outs.zip vals ∧ ctx.isPCReg p.1 = true ∧
          p.2.isConst = true ∧ p.2.val = A ∧ A ≠ PC := by
  intro ctx PC outs vals A
  simp only [storeResults, List.mem_filterMap]
  constructor
  · rintro ⟨p, hp, hf⟩
    split_ifs at hf with h1 h2 h3
    · have hv : p.2.val = A := by injection hf
      exact ⟨p, hp, h1, h2, hv, by omega⟩
  · rintro ⟨p, hp, h1, h2, h3, h4⟩
    refine ⟨p, hp, ?_⟩
    have h5 : PC ≠ p.2.val := by omega
    simp only [h1, h2, h5, if_true, ne_eq, not_false_eq_true, if_pos, h3]
    rw [if_pos (by omega)]

/-- Claim C5, counterexample at n = 0: the translated rotate-left of
x = 1 by n = 0 at width 32 emits a second shift whose amount is the full
register width (32 - 0), which is poison in LLVM; the poison mark
propagates through the translated rotate-right, so the round trip
produces a poison value, not the definite value 1 the claim promises
for every n in [0, w). -/
theorem rotate_round_trip_fails_at_zero :
    translateOpcode ctx0 st0 .rotl_i32 []
        [⟨32, 1, false, false, false⟩, ⟨32, 0, false, false, false⟩] =
      .ok ([⟨32, 1, false, false, true⟩], st0) ∧
    translateOpcode ctx0 st0 .rotr_i32 []
        [⟨32, 1, false, false, true⟩, ⟨32, 0, false, false, false⟩] =
      .ok ([⟨32, 1, false, false, true⟩], st0) ∧
    (⟨32, 1, false, false, true⟩ : TValue) ≠ ⟨32, 1, false, false, false⟩ :=
  ⟨rfl, rfl, by decide⟩

/-- Claim C5 as amended: for every rotation amount 1 ≤ n < w (widths 32
and 64), composing the two rotate translations as implemented cancels:
feeding the result of the translated rotate-left of x by n into the
translated rotate-right by the same n returns x, and no shift in either
translation is oversized (the results are poison-free).  At n = 0 the
second shift's amount equals the width and the result is poison. -/
theorem rotate_round_trip :
    ∀ (ctx : Ctx) (s : FnState) (cs cs2 : List Nat) (x n : Nat),
      (x < 2 ^ 32 → 0 < n → n < 32 →
        ∃ y : TValue,
          translateOpcode ctx s .rotl_i32 cs
              [⟨32, x, false, false, false⟩, ⟨32, n, false, false, false⟩] = .ok ([y], s) ∧
          translateOpcode ctx s .rotr_i32 cs2 [y, ⟨32, n, false, false, false⟩] =
            .ok ([⟨32, x, false, false, false⟩], s)) ∧
      (x < 2 ^ 64 → 0 < n → n < 64 →
        ∃ y : TValue,
          translateOpcode ctx s .rotl_i64 cs
              [⟨64, x, false, false, false⟩, ⟨64, n, false, false, false⟩] = .ok ([y], s) ∧
          translateOpcode ctx s .rotr_i64 cs2 [y, ⟨64, n, false, false, false⟩] =
            .ok ([⟨64, x, false, false, false⟩], s)) := by
  intro ctx s cs cs2 x n
  constructor
  · intro hx hn0 hn
    have hsub : (32 % 2 ^ 32 + (2 ^ 32 - n % 2 ^ 32)) % 2 ^ 32 = 32 - n := by omega
    have hd1 : decide (32 ≤ n) = false := decide_eq_false (by omega)
    have hd2 : decide (32 ≤ 32 - n) = false := decide_eq_false (by omega)
    refine ⟨⟨32, (x >>> n) ||| ((x <<< (32 - n)) % 2 ^ 32), false, false, false⟩, ?_, ?_⟩
    · rw [rotl32_arm]
      simp only [evalBinOp, hsub, hd1, hd2, Bool.or_false, Bool.false_or]
    · rw [rotr32_arm]
      simp only [evalBinOp, hsub, hd1, hd2, Bool.or_false, Bool.false_or]
      have hval : ((((x >>> n) ||| ((x <<< (32 - n)) % 2 ^ 32)) <<< n) % 2 ^ 32) |||
          (((x >>> n) ||| ((x <<< (32 - n)) % 2 ^ 32)) >>> (32 - n)) = x :=
        rot_cancel hx hn
      rw [hval]
  · intro hx hn0 hn
    have hsub : (64 % 2 ^ 64 + (2 ^ 64 - n % 2 ^ 64)) % 2 ^ 64 = 64 - n := by omega
    have hd1 : decide (64 ≤ n) = false := decide_eq_false (by omega)
    have hd2 : decide (64 ≤ 64 - n) = false := decide_eq_false (by omega)
    refine ⟨⟨64, (x >>> n) ||| ((x <<< (64 - n)) % 2 ^ 64), false, false, false⟩, ?_, ?_⟩
    · rw [rotl64_arm]
      simp only [evalBinOp, hsub, hd1, hd2, Bool.or_false, Bool.false_or]
    · rw [rotr64_arm]
      simp only [evalBinOp, hsub, hd1, hd2, Bool.or_false, Bool.false_or]
      have hval : ((((x >>> n) ||| ((x <<< (64 - n)) % 2 ^ 64)) <<< n) % 2 ^ 64) |||
          (((x >>> n) ||| ((x <<< (64 - n)) % 2 ^ 64)) >>> (64 - n)) = x :=
        rot_cancel hx hn
      rw [hval]

/-- Witness for the amended C5 at x = 5, n = 3, both widths. -/
theorem rotate_round_trip_witness :
    (∃ y : TValue,
      translateOpcode ctx0 st0 .rotl_i32 []
          [⟨32, 5, false, false, false⟩, ⟨32, 3, false, false, false⟩] = .ok ([y], st0) ∧
      translateOpcode ctx0 st0 .rotr_i32 [] [y, ⟨32, 3, false, false, false⟩] =
        .ok ([⟨32, 5, false, false, false⟩], st0)) ∧
    (∃ y : TValue,
      translateOpcode ctx0 st0 .rotl_i64 []
          [⟨64, 5, false, false, false⟩, ⟨64, 3, false, false, false⟩] = .ok ([y], st0) ∧
      translateOpcode ctx0 st0 .rotr_i64 [] [y, ⟨64, 3, false, false, false⟩] =
        .ok ([⟨64, 5, false, false, false⟩], st0)) :=
  ⟨(rotate_round_trip ctx0 st0 [] [] 5 3).1 (by decide) (by decide) (by decide),
   (rotate_round_trip ctx0 st0 [] [] 5 3).2 (by decide) (by decide) (by decide)⟩

/-- Claim C7: the dispatcher returns the distinguished recoverable
failure value exactly when the micro-operation is one of the
process-state memory accesses whose address operand (InArguments[0] for
loads, InArguments[1] for stores) does not trace to the env base; and
whenever it does, the driving loop emits a call to abort followed by an
unreachable terminator, stores nothing, requests no discovery, and
reports the micro-operation as terminal. -/
theorem recoverable_iff_untraceable_env_access :
    ∀ (ctx : Ctx) (s : FnState) (op : PTCOpcode) (cs : List Nat) (ins : List TValue),
      (translateOpcode ctx s op cs ins = .error .recoverable ↔
        ((isEnvLoadOpcode op = true ∧ (arg ins 0).isEnv = false) ∨
         (isEnvStoreOpcode op = true ∧ (arg ins 1).isEnv = false))) ∧
      (∀ (I : PTCInstr) (PC : Nat),
        translateOpcode ctx s I.opc I.constArgs (I.inArgs.map ctx.loadTemp) =
          .error .recoverable →
        translate ctx s I PC =
          .ok ({ events := [.callAbort, .unreachable], terminal := true,
                 stores := [], discovered := [] }, s)) := by
  intro ctx s op cs ins
  constructor
  · cases op <;>
      simp only [translateOpcode, isEnvLoadOpcode, isEnvStoreOpcode] <;>
      (repeat' split) <;>
      simp_all
  · intro I PC h
    simp only [translate, h]

/-- Witness for C7: a state-field load whose (loaded) address operand is
not an env load is a recoverable failure, and the loop responds with the
abort/unreachable trap and a terminal result. -/
theorem recoverable_iff_untraceable_env_access_witness :
    translateOpcode ctx0 st0 .ld_i32 [8] [⟨64, 0, false, false, false⟩] =
      .error .recoverable ∧
    translate ctx0 st0 ⟨.ld_i32, [0], [8], [1]⟩ 0 =
      .ok ({ events := [.callAbort, .unreachable], terminal := true,
             stores := [], discovered := [] }, st0) :=
  ⟨(recoverable_iff_untraceable_env_access ctx0 st0 .ld_i32 [8]
      [⟨64, 0, false, false, false⟩]).1.mpr (Or.inl ⟨rfl, rfl⟩),
   (recoverable_iff_untraceable_env_access ctx0 st0 .ld_i32 [8]
      [⟨64, 0, false, false, false⟩]).2 ⟨.ld_i32, [0], [8], [1]⟩ 0
     ((recoverable_iff_untraceable_env_access ctx0 st0 .ld_i32 [8]
        [ctx0.loadTemp 0]).1.mpr (Or.inl ⟨rfl, rfl⟩))⟩

/-- Witness for C10 at a concrete store list: storing the constant 52
into PC slot 9 at PC = 48 requests discovery of 52. -/
theorem discovery_request_iff_witness :
    52 ∈ (storeResults
        { ctx0 with isPCReg := fun t => t = 9 } 48 [9]
        [⟨64, 52, true, false, false⟩]).2 :=
  (discovery_request_iff { ctx0 with isPCReg := fun t => t = 9 } 48 [9]
      [⟨64, 52, true, false, false⟩] 52).mpr
    ⟨(9, ⟨64, 52, true, false, false⟩), by decide, by decide, rfl, rfl, by decide⟩

end Revng
